import Mathlib

/-!
Verification development for the BMW CarData MQTT bridge
(src/src/bmw_mqtt_bridge.cpp).

The definitions below are a shallow embedding of the C++ source.  Pure
helpers become Lean functions on `String`/`Int`; the stateful supervisor
loop becomes an explicit step function on a state record, parameterised
by the wall-clock values it observes and by oracles for the outcomes of
external calls (HTTP transport, file-system writes, client allocation).
C++ `std::string` values are modelled as Lean `String` (one `Char` per
byte); `time_t`/`long` become `Int`; a C++ function that can let an
exception escape is modelled with `Option` (`none` = uncaught exception).
The external JSON parser (nlohmann::json) is abstracted as a function
`String → Option Json` (`none` = parse failure), while member access,
serialization and the rest of the bridge's JSON handling are modelled
concretely on the `Json` type below.
-/

/-! ## Byte-string helpers (trim, split, join) -/

/-- Whitespace predicate used by both C++ helpers `trim` and `trim_copy`
(the set is exactly newline, carriage return, tab, space). -/
def isws (c : Char) : Bool := c == '\n' || c == '\r' || c == '\t' || c == ' '

/-- Strip `isws` characters from both ends of a character list. -/
def trimChars (l : List Char) : List Char :=
  ((l.dropWhile isws).reverse.dropWhile isws).reverse

/-- Model of the C++ helper `trim` (strip surrounding whitespace). -/
def trim (s : String) : String := String.mk (trimChars s.toList)

/-- Model of the C++ helper `trim_copy`; it computes the same function as
`trim` (both strip the same character set from both ends). -/
def trim_copy (s : String) : String := trim s

/-- Split a character list at every occurrence of `sep`.  The accumulator
holds the current segment reversed.  This models the C++ idiom of
repeated `find(sep)` / `substr`: the result is the list of (possibly
empty) segments between separators, and is never empty. -/
def splitCharsAux (sep : Char) : List Char → List Char → List (List Char)
  | [], acc => [acc.reverse]
  | c :: cs, acc =>
    if c == sep then acc.reverse :: splitCharsAux sep cs []
    else splitCharsAux sep cs (c :: acc)

/-- Segments of `s` between occurrences of the separator character. -/
def splitOnChar (sep : Char) (s : String) : List String :=
  (splitCharsAux sep s.toList []).map String.mk

/-- Join segments with a separator; inverse of `splitOnChar` on its range.
`joinWith sep (splitOnChar sep s).tail` reconstructs the suffix of `s`
after its first separator, which is how `substr(pos)` results are
expressed below. -/
def joinWith (sep : String) : List String → String
  | [] => ""
  | [x] => x
  | x :: y :: xs => x ++ sep ++ joinWith sep (y :: xs)

/-! ## Environment / .env file model (load_env_file, env_str) -/

/-- A process environment: later entries are shadowed by earlier ones, so
`setenv` with overwrite conses the new binding and drops the old. -/
abbrev EnvMap := List (String × String)

/-- Model of `getenv`. -/
def lookupEnv (env : EnvMap) (k : String) : Option String :=
  (env.find? (fun p => p.1 == k)).map (·.2)

/-- Model of `setenv(key, val, 1)`: overwrite semantics — any previous
binding of the key is replaced. -/
def setenvOv (env : EnvMap) (k v : String) : EnvMap :=
  (k, v) :: env.filter (fun p => p.1 != k)

/-- Quote handling of `load_env_file`: if the value has length at least 2
and is surrounded by a matching pair of double or single quotes, the
quotes are removed. -/
def stripQuotes (v : String) : String :=
  let l := v.toList
  if 2 ≤ l.length ∧
      ((l.head? = some '"' ∧ l.getLast? = some '"') ∨
       (l.head? = some '\'' ∧ l.getLast? = some '\'')) then
    String.mk ((l.drop 1).dropLast)
  else v

/-- Line handling of `load_env_file`: skip empty lines and lines starting
with a hash; skip lines without an equals sign; the key is the trimmed
text before the first equals sign, the value the trimmed (and unquoted)
text after it; skip lines whose key trims to empty. -/
def parseEnvLine (line : String) : Option (String × String) :=
  if line = "" then none
  else if line.toList.head? = some '#' then none
  else
    match splitOnChar '=' line with
    | [] => none
    | [_] => none
    | k :: rest =>
      let key := trim_copy k
      let val := stripQuotes (trim_copy (joinWith "=" rest))
      if key = "" then none else some (key, val)

/-- One iteration of the `load_env_file` read loop: parse the line and, on
success, `setenv` with overwrite enabled. -/
def processEnvLine (env : EnvMap) (line : String) : EnvMap :=
  match parseEnvLine line with
  | some (k, v) => setenvOv env k v
  | none => env

/-- Model of `load_env_file`: process each line of the file in order
against the current process environment. -/
def load_env_file (env : EnvMap) (lines : List String) : EnvMap :=
  lines.foldl processEnvLine env

/-- Model of `env_str`: the configured value is the environment value when
present and non-empty, the default otherwise. -/
def env_str (env : EnvMap) (k d : String) : String :=
  match lookupEnv env k with
  | some v => if v = "" then d else v
  | none => d

/-! ## JSON values -/

/-- JSON value model.  Numbers are modelled as integers (the bridge only
reads integral claims such as the token expiry); objects are association
lists — nlohmann::json stores object members sorted by key, which claims
below never depend on. -/
inductive Json where
  | null
  | bool (b : Bool)
  | num (n : Int)
  | str (s : String)
  | arr (xs : List Json)
  | obj (m : List (String × Json))

/-- Association-list lookup of an object member (nlohmann `find`). -/
def Json.find? (m : List (String × Json)) (k : String) : Option Json :=
  match m with
  | [] => none
  | e :: rest => if e.1 == k then some e.2 else Json.find? rest k

mutual
/-- Compact serialization, modelling nlohmann `dump()` (string escaping
is not modelled; the payloads handled by the claims contain no escapes). -/
def Json.dump : Json → String
  | .null => "null"
  | .bool b => if b then "true" else "false"
  | .num n => toString n
  | .str s => "\"" ++ s ++ "\""
  | .arr xs => "[" ++ Json.dumpList xs ++ "]"
  | .obj m => "\x7b" ++ Json.dumpObjList m ++ "\x7d"

/-- Comma-separated serialization of array elements. -/
def Json.dumpList : List Json → String
  | [] => ""
  | [x] => Json.dump x
  | x :: y :: xs => Json.dump x ++ "," ++ Json.dumpList (y :: xs)

/-- Comma-separated serialization of object members. -/
def Json.dumpObjList : List (String × Json) → String
  | [] => ""
  | [e] => "\"" ++ e.1 ++ "\":" ++ Json.dump e.2
  | e :: f :: xs =>
    "\"" ++ e.1 ++ "\":" ++ Json.dump e.2 ++ "," ++ Json.dumpObjList (f :: xs)
end

/-- Model of nlohmann `contains(k)`: false on non-objects. -/
def Json.containsKey : Json → String → Bool
  | .obj m, k => (Json.find? m k).isSome
  | _, _ => false

/-- Model of the check `j.contains("error") && !j["error"].is_null()` in
`refresh_tokens`. -/
def Json.hasNonNullError : Json → Bool
  | .obj m =>
    (match Json.find? m "error" with
     | some .null => false
     | some _ => true
     | none => false)
  | _ => false

/-- Model of nlohmann `j.value(k, "")` with string value type: the
default for a missing member, the string for a string member.  A present
non-string member or a non-object `j` makes nlohmann throw a type error;
that is the `none` case (the exception escapes `refresh_tokens`). -/
def Json.valueStr : Json → String → Option String
  | .obj m, k =>
    (match Json.find? m k with
     | none => some ""
     | some (.str s) => some s
     | some _ => none)
  | _, _ => none

/-- Model of nlohmann `j.value("exp", 0L)`: 0 for a missing member, the
number for a numeric member, bool-to-int conversion for a boolean
member.  A present member of any other type, or a non-object `j`, makes
nlohmann throw (`none` = the exception escapes `jwt_exp_unix`). -/
def Json.valueInt : Json → String → Option Int
  | .obj m, k =>
    (match Json.find? m k with
     | none => some 0
     | some (.num n) => some n
     | some (.bool b) => some (if b then 1 else 0)
     | some _ => none)
  | _, _ => none

/-! ## Base64url decoding and JWT expiry (base64url_decode, jwt_exp_unix) -/

/-- Model of the C++ table `b64tbl`: value of a standard base64 character,
255 for anything else (including the padding character). -/
def b64tbl (c : Char) : Nat :=
  if 'A' ≤ c ∧ c ≤ 'Z' then c.toNat - 'A'.toNat
  else if 'a' ≤ c ∧ c ≤ 'z' then c.toNat - 'a'.toNat + 26
  else if '0' ≤ c ∧ c ≤ '9' then c.toNat - '0'.toNat + 52
  else if c = '+' then 62
  else if c = '/' then 63
  else 255

/-- Model of `b64url_to_b64`: map the URL-safe alphabet back to standard
base64 and right-pad with the padding character to a multiple of 4. -/
def b64url_to_b64 (l : List Char) : List Char :=
  let m := l.map (fun c => if c == '-' then '+' else if c == '_' then '/' else c)
  m ++ List.replicate ((4 - m.length % 4) % 4) '='

/-- Decoding loop of `base64url_decode`: consume four characters at a
time; an invalid character in the first two positions stops the loop; a
padding or invalid character in position three or four suppresses the
corresponding output bytes.  The input length is a multiple of 4 after
padding, so the catch-all case is unreachable. -/
def b64chunks : List Char → List Char
  | c0 :: c1 :: c2 :: c3 :: rest =>
    let a := b64tbl c0
    let b := b64tbl c1
    let c := if c2 = '=' then 255 else b64tbl c2
    let d := if c3 = '=' then 255 else b64tbl c3
    if a = 255 ∨ b = 255 then []
    else
      Char.ofNat ((a <<< 2 ||| b >>> 4) % 256) ::
        (if c ≠ 255 then
          Char.ofNat (((b &&& 0x0F) <<< 4 ||| c >>> 2) % 256) ::
            (if d ≠ 255 then [Char.ofNat (((c &&& 0x03) <<< 6 ||| d) % 256)] else [])
         else []) ++ b64chunks rest
  | _ => []

/-- Model of the C++ `base64url_decode`. -/
def base64url_decode (s : String) : String :=
  String.mk (b64chunks (b64url_to_b64 s.toList))

/-- Model of `jwt_exp_unix`, parameterised by the external JSON parser.
Fewer than two dots yields 0; a payload that fails to parse yields 0;
otherwise the `exp` member is read with default 0 (`Json.valueInt`).
`none` models an uncaught nlohmann exception (non-numeric `exp` or a
non-object payload). -/
def jwt_exp_unix (parse : String → Option Json) (jwt : String) : Option Int :=
  match splitOnChar '.' jwt with
  | _ :: payload :: _ :: _ =>
    (match parse (base64url_decode payload) with
     | none => some 0
     | some j => Json.valueInt j "exp")
  | _ => some 0

/-! ## Republisher (on_bmw_message) -/

/-- A single MQTT publish as issued to the local broker. -/
structure Pub where
  topic : String
  payload : String
  qos : Nat
  retain : Bool
deriving Repr, DecidableEq

/-- Raw-passthrough topic: the configured local topic root, then the
literal text raw, then everything of the incoming topic from its first
slash onward (nothing when the incoming topic has no slash).  This
models the expression
LOCAL_PREFIX + "raw" + (pos != npos ? in_topic.substr(pos) : ""). -/
def rawTopic (pre t : String) : String :=
  match splitOnChar '/' t with
  | _ :: r :: rest => pre ++ "raw/" ++ joinWith "/" (r :: rest)
  | _ => pre ++ "raw"

/-- Vehicle id extracted from the topic: the segment between the first
and second slash, or everything after the first slash when there is no
second slash — in both cases the second slash-delimited segment.  Empty
when the topic has no slash. -/
def vinFromTopic (t : String) : String :=
  match splitOnChar '/' t with
  | _ :: v :: _ => v
  | _ => ""

/-- Per-property publishes from the parsed payload: one publish per
member of the top-level data object whose value contains a value member,
carrying the serialized member object.  Anything else (data missing or
not an object) raises, which the caller catches after zero publishes. -/
def dataPubs (pre vid : String) (j : Json) : List Pub :=
  match j with
  | .obj m =>
    (match Json.find? m "data" with
     | some (.obj d) =>
       d.filterMap (fun e =>
         if (e.2).containsKey "value" then
           some ⟨pre ++ "vehicles/" ++ vid ++ "/" ++ e.1, (e.2).dump, 0, false⟩
         else none)
     | _ => [])
  | _ => []

/-- The vin string taken from the payload: the top-level vin member when
it is a string (possibly empty), empty otherwise. -/
def vinFromPayload (j : Json) : String :=
  match j with
  | .obj m =>
    (match Json.find? m "vin" with
     | some (.str s) => s
     | _ => "")
  | _ => ""

/-- The try-block of `on_bmw_message` after the raw republish: parse
failure publishes nothing; a non-empty payload vin is used as-is (no
length check); otherwise the id comes from the topic and must have
exactly 17 characters; a missing id publishes nothing.  Every throw is
caught inside the callback, so the function is total and a processing
failure never escapes. -/
def fanoutPubs (pre t : String) (parsed : Option Json) : List Pub :=
  match parsed with
  | none => []
  | some j =>
    let vinP := vinFromPayload j
    if vinP ≠ "" then dataPubs pre vinP j
    else
      match splitOnChar '/' t with
      | _ :: v :: _ => if v.length = 17 then dataPubs pre v j else []
      | _ => []

/-- Model of the delivery callback `on_bmw_message`: the unconditional
raw republish of the byte-identical payload, followed by the per-property
fan-out. -/
def on_bmw_message (pre t payload : String) (parsed : Option Json) : List Pub :=
  ⟨rawTopic pre t, payload, 0, false⟩ :: fanoutPubs pre t parsed

/-! ## Status topic and last will (publish_status, mosquitto_will_set) -/

/-- Payload of a status publish: `dump` of the two-member object built in
`publish_status` (nlohmann orders members alphabetically, and the
insertion order connected, timestamp is already alphabetical). -/
def statusPayload (connected : Bool) (ts : Int) : String :=
  (Json.obj [("connected", Json.bool connected), ("timestamp", Json.num ts)]).dump

/-- Model of `publish_status`: a retained QoS-0 publish on the fixed
topic bmw/status (the topic string in the source is a literal and does
not involve LOCAL_PREFIX). -/
def publishStatusPub (connected : Bool) (ts : Int) : Pub :=
  ⟨"bmw/status", statusPayload connected ts, 0, true⟩

/-- Model of the last will installed on the local client in `main`: a
retained QoS-0 publish of a literal payload on the fixed topic
bmw/status. -/
def localWillPub : Pub :=
  ⟨"bmw/status", "\x7b\"connected\":false\x7d", 0, true⟩

/-! ## Connect callback and backoff (jitter_ms, on_bmw_connect_v5) -/

/-- Model of `jitter_ms`: the base value plus one draw of the uniform
distribution on [-250, 250]; the draw is passed in as a parameter. -/
def jitter_ms (base draw : Int) : Int := base + draw

/-- Backoff delay chosen by `on_bmw_connect_v5` for a nonzero reason
code, modelled with the same sequence of overriding assignments as the
source (default 5; 151 quota exceeded; 128/133 unspecified or server
busy; 135 not authorized). -/
def backoffDelay (rc : Int) : Int :=
  let d : Int := 5
  let d := if rc = 151 then 60 else d
  let d := if rc = 128 ∨ rc = 133 then 20 else d
  let d := if rc = 135 then 30 else d
  d

/-- The three session coordination fields written by the upstream
client's callbacks. -/
structure CbState where
  connected : Bool
  last_connect_attempt : Int
  next_connect_after : Int
deriving Repr, DecidableEq

/-- Model of the connect-v5 callback: on reason code 0 mark connected and
clear the pending-connect stamp; on a nonzero reason code set the backoff
fence to now plus the table delay plus the jitter draw divided by 1000
(C++ integer division, truncation toward zero) and mark disconnected. -/
def on_bmw_connect_v5 (st : CbState) (rc now draw : Int) : CbState :=
  if rc = 0 then { st with connected := true, last_connect_attempt := 0 }
  else
    { st with
        next_connect_after := now + backoffDelay rc + Int.tdiv (jitter_ms 0 draw) 1000
      , connected := false }

/-! ## Atomic token persistence (write_file_atomic, token files) -/

/-- File-system operations performed by `write_file_atomic`, in order. -/
inductive FsOp where
  | createTemp
  | chmodTemp (mode : Nat)
  | writeTemp (data : String)
  | fsyncTemp
  | renameTemp
  | fsyncDir
  | unlinkTemp
deriving Repr, DecidableEq

/-- Failure oracle for one `write_file_atomic` call: which system call
fails first, or none of them. -/
inductive WFail where
  | atMkstemp
  | atChmod
  | atWrite
  | atFsync
  | atRename
  | ok
deriving Repr, DecidableEq

/-- Model of `write_file_atomic`: the success flag and the trace of
file-system operations attempted, following the source's early-return
error paths (each failure unlinks the temporary file and returns false).
The target file is replaced exactly when the call succeeds, since only
the final rename touches the target path. -/
def write_file_atomic (data : String) (f : WFail) : Bool × List FsOp :=
  match f with
  | .atMkstemp => (false, [.createTemp])
  | .atChmod => (false, [.createTemp, .chmodTemp 0o644, .unlinkTemp])
  | .atWrite => (false, [.createTemp, .chmodTemp 0o644, .writeTemp data, .unlinkTemp])
  | .atFsync =>
    (false, [.createTemp, .chmodTemp 0o644, .writeTemp data, .fsyncTemp, .unlinkTemp])
  | .atRename =>
    (false,
     [.createTemp, .chmodTemp 0o644, .writeTemp data, .fsyncTemp, .renameTemp, .unlinkTemp])
  | .ok =>
    (true,
     [.createTemp, .chmodTemp 0o644, .writeTemp data, .fsyncTemp, .renameTemp, .fsyncDir])

/-- The three on-disk credential files. -/
structure TokenFiles where
  idTok : String
  rtTok : String
  acTok : String
deriving Repr, DecidableEq

/-- The persistence phase of `refresh_tokens`: three `write_file_atomic`
calls combined with non-short-circuiting `&=`, so every file is attempted
even after an earlier failure.  Returns the overall success flag, the
final file contents, and the sequence of file states observable by a
concurrent reader (initially, and after each of the three renames). -/
def persistTokens (old new : TokenFiles) (f1 f2 f3 : WFail) :
    Bool × TokenFiles × List TokenFiles :=
  let s0 := old
  let s1 := if (write_file_atomic new.idTok f1).1 then { s0 with idTok := new.idTok } else s0
  let s2 := if (write_file_atomic new.rtTok f2).1 then { s1 with rtTok := new.rtTok } else s1
  let s3 := if (write_file_atomic new.acTok f3).1 then { s2 with acTok := new.acTok } else s2
  ((write_file_atomic new.idTok f1).1 && (write_file_atomic new.rtTok f2).1 &&
     (write_file_atomic new.acTok f3).1,
   s3, [s0, s1, s2, s3])

/-- A reader of the individual credential files only ever observes, for
each file separately, either that file's pre-refresh or its post-refresh
content. -/
def fileAtomicObs (old new : TokenFiles) (states : List TokenFiles) : Bool :=
  states.all (fun s =>
    (s.idTok == old.idTok || s.idTok == new.idTok) &&
    (s.rtTok == old.rtTok || s.rtTok == new.rtTok) &&
    (s.acTok == old.acTok || s.acTok == new.acTok))

/-! ## Token refresh (refresh_tokens) -/

/-- Inputs and oracles of one `refresh_tokens` run: the raw content of
refresh_token.txt, whether curl_easy_init succeeds, the HTTP outcome
(`none` = transport failure, otherwise status code and body), the JSON
parse result of the body, and the three write oracles. -/
structure RefreshEnv where
  refreshFileRaw : String
  curlInitOk : Bool
  transport : Option (Int × String)
  parsed : Option Json
  f1 : WFail
  f2 : WFail
  f3 : WFail

/-- Result of `refresh_tokens`: failure, or success carrying the three
trimmed tokens written to disk and stored in memory together with the
recomputed expiry. -/
inductive ROut where
  | fail
  | success (idTok rtTok acTok : String) (exp : Int)
deriving Repr, DecidableEq

/-- Model of `refresh_tokens`.  Follows the source's early returns: empty
stored refresh token; curl init failure; transport failure; non-200
status (the body having been saved to the debug file, not modelled as an
observable); undecodable 200 body; JSON error member; missing or empty
token members after trimming; failed persistence (all three files still
attempted).  On success the in-memory tokens are replaced and the expiry
recomputed from the new identity token.  `none` models an uncaught
nlohmann exception (non-string token member, non-object response, or a
non-numeric `exp` in the new token), which escapes the function. -/
def refresh_tokens (parse : String → Option Json) (old : TokenFiles)
    (e : RefreshEnv) : Option (ROut × TokenFiles) :=
  if trim e.refreshFileRaw = "" then some (.fail, old)
  else if !e.curlInitOk then some (.fail, old)
  else
    match e.transport with
    | none => some (.fail, old)
    | some (code, _body) =>
      if code ≠ 200 then some (.fail, old)
      else
        match e.parsed with
        | none => some (.fail, old)
        | some j =>
          if j.hasNonNullError then some (.fail, old)
          else
            match j.valueStr "id_token", j.valueStr "refresh_token",
                j.valueStr "access_token" with
            | some id0, some rt0, some ac0 =>
              let newId := trim id0
              let newRt := trim rt0
              let newAc := trim ac0
              if newId = "" ∨ newRt = "" ∨ newAc = "" then some (.fail, old)
              else
                let p := persistTokens old ⟨newId, newRt, newAc⟩ e.f1 e.f2 e.f3
                if !p.1 then some (.fail, p.2.1)
                else
                  match jwt_exp_unix parse newId with
                  | none => none
                  | some ex => some (.success newId newRt newAc ex, p.2.1)
            | _, _, _ => none

/-! ## Supervisor loop (main) -/

/-- Soft-refresh margin: refresh 10 minutes before expiry. -/
def SOFT_MARGIN_SECS : Int := 10 * 60

/-- Hard-refresh interval: refresh at least every 45 minutes. -/
def HARD_REFRESH_SECS : Int := 45 * 60

/-- Safety margin for clock drift. -/
def CLOCK_SKEW_SECS : Int := 60

/-- The refresh gate evaluated on each tick after the backoff fence:
(soft due or hard due) and strictly more than 10 seconds since the
previous refresh attempt. -/
def should_try (tokExp now lastSuccess lastAttempt : Int) : Bool :=
  (decide (tokExp - now ≤ SOFT_MARGIN_SECS + CLOCK_SKEW_SECS) ||
   decide (now - lastSuccess ≥ HARD_REFRESH_SECS)) &&
  decide (now - lastAttempt > 10)

/-- Supervisor-visible session state at the top of a tick. -/
structure SupState where
  connected : Bool
  last_connect_attempt : Int
  next_connect_after : Int
  id_token_exp : Int
  last_refresh_attempt : Int
  last_successful_refresh : Int
deriving Repr, DecidableEq

/-- Wall-clock values observed during one tick: `now` at the top of the
loop body; `t1` when the post-refresh fence is written; `t2` inside
`bmw_full_reconnect` (connect issue and attempt stamp); `t3` at the
watchdog's fresh fence check before its connect.  The 1.5-2.0 s sleep
between the fence write and `bmw_full_reconnect` means `t1 + 1 ≤ t2`
on the integer-second clock; theorems take that as a hypothesis. -/
structure TickTimes where
  now : Int
  t1 : Int
  t2 : Int
  t3 : Int
deriving Repr, DecidableEq

/-- Externally visible actions of a tick: a CONNECT issued at an observed
time while the fence holds a given value, or a token-refresh attempt. -/
inductive Ev where
  | connect (tObs fence : Int)
  | refreshAttempt
deriving Repr, DecidableEq

/-- Refresh part of a tick's body (the fence is already known open).  A
successful refresh stamps the attempt clocks, updates the expiry, sets
the fence to `t1 + 1`, sleeps, and calls `bmw_full_reconnect` — which
issues its CONNECT without rechecking the fence and stamps
`last_connect_attempt` (no CONNECT when client allocation fails).  A
failed refresh sets the fence 15 s ahead. -/
def refreshPhase (st : SupState) (tm : TickTimes)
    (refreshOk : Bool) (newExp : Int) (rebuildOk : Bool) : SupState × List Ev :=
  if should_try st.id_token_exp tm.now st.last_successful_refresh
      st.last_refresh_attempt then
    if refreshOk then
      let stA : SupState :=
        { st with
            connected := false
          , id_token_exp := newExp
          , last_refresh_attempt := tm.now
          , last_successful_refresh := tm.now
          , next_connect_after := tm.t1 + 1 }
      if rebuildOk then
        ({ stA with last_connect_attempt := tm.t2 },
         [Ev.refreshAttempt, Ev.connect tm.t2 (tm.t1 + 1)])
      else (stA, [Ev.refreshAttempt])
    else
      ({ st with
           last_refresh_attempt := tm.now
         , next_connect_after := tm.now + 15 },
       [Ev.refreshAttempt])
  else (st, [])

/-- CONNECT watchdog part of a tick's body: fires when an attempt stamp
is pending for more than 30 s, rechecks the fence with the stale `now`,
rebuilds, and connects only after a fresh fence check at `t3`. -/
def watchdogPhase (st1 : SupState) (tm : TickTimes) (rebuildOk2 : Bool) :
    SupState × List Ev :=
  if st1.last_connect_attempt ≠ 0 ∧ tm.now - st1.last_connect_attempt > 30 then
    if tm.now < st1.next_connect_after then (st1, [])
    else if !rebuildOk2 then ({ st1 with connected := false }, [])
    else if tm.t3 ≥ st1.next_connect_after then
      ({ st1 with connected := false, last_connect_attempt := tm.t3 },
       [Ev.connect tm.t3 st1.next_connect_after])
    else ({ st1 with connected := false }, [])
  else (st1, [])

/-- One iteration of the supervisor loop, sequential model (callbacks do
not interleave).  The backoff fence guards the whole body; then the
refresh phase runs, then the CONNECT watchdog on the resulting state. -/
def supervisorTick (st : SupState) (tm : TickTimes)
    (refreshOk : Bool) (newExp : Int) (rebuildOk rebuildOk2 : Bool) :
    SupState × List Ev :=
  if tm.now < st.next_connect_after then (st, [])
  else
    let p := refreshPhase st tm refreshOk newExp rebuildOk
    let w := watchdogPhase p.1 tm rebuildOk2
    (w.1, p.2 ++ w.2)

/-- The guarded initial connect in `main`: a CONNECT is issued only when
the observed time has reached the backoff fence. -/
def initialConnect (t fence : Int) : List Ev :=
  if t ≥ fence then [Ev.connect t fence] else []

/-- An event respects the backoff fence when any CONNECT it describes was
issued at an observed time not earlier than the fence value. -/
def fenceOk : Ev → Bool
  | .connect tObs fence => decide (tObs ≥ fence)
  | .refreshAttempt => true

/-- All events of a list respect the backoff fence. -/
def allFenceOk (evs : List Ev) : Bool := evs.all fenceOk

/-! ## Claim-side definitions (worded from the specification) -/

/-- Backoff table exactly as the specification lists it: 151 maps to 60,
135 to 30, 128 and 133 to 20, every other nonzero code to 5. -/
def claimDelay (rc : Int) : Int :=
  if rc = 151 then 60
  else if rc = 135 then 30
  else if rc = 128 ∨ rc = 133 then 20
  else 5

/-- Refresh condition as claim C3 words it: soft margin 660 s or hard
interval 2700 s, and at least 10 seconds since the previous attempt. -/
def refreshDueClaim (tokExp now lastSuccess lastAttempt : Int) : Bool :=
  (decide (tokExp - now ≤ 660) || decide (now - lastSuccess ≥ 2700)) &&
  decide (now - lastAttempt ≥ 10)

/-- Amended refresh condition: identical margins, but strictly more than
10 seconds (equivalently at least 11 seconds) since the previous
attempt. -/
def refreshDueAmended (tokExp now lastSuccess lastAttempt : Int) : Bool :=
  (decide (tokExp - now ≤ 660) || decide (now - lastSuccess ≥ 2700)) &&
  decide (now - lastAttempt ≥ 11)

/-- Claim C4's reading of a missing credential: the member is absent, or
is a string that trims to empty (non-string members are outside the
claim's schema and are handled by the theorems' hypotheses). -/
def tokenMissingOrEmpty (j : Json) (k : String) : Bool :=
  match j with
  | .obj m =>
    (match Json.find? m k with
     | some (.str s) => trim s == ""
     | some _ => false
     | none => true)
  | _ => true

/-- Any of the three required token members missing per claim C4. -/
def tokensMissing : Option Json → Bool
  | some j =>
    tokenMissingOrEmpty j "id_token" || tokenMissingOrEmpty j "refresh_token" ||
      tokenMissingOrEmpty j "access_token"
  | none => false

/-- The failure conditions exactly as claim C4 enumerates them: transport
failure, non-200 status, a non-null error member, a missing or empty
token, or a failed token-file write. -/
def claimFailCond (e : RefreshEnv) : Bool :=
  e.transport.isNone ||
  (match e.transport with
   | some (c, _) => c != 200
   | none => false) ||
  (match e.parsed with
   | some j => j.hasNonNullError
   | none => false) ||
  tokensMissing e.parsed ||
  !((e.f1 == WFail.ok) && (e.f2 == WFail.ok) && (e.f3 == WFail.ok))

/-- Amended failure conditions: claim C4's list extended with the cases
the source also fails on — an empty stored refresh token (checked before
any HTTP), a curl handle that cannot be created, and a 200 body that is
not valid JSON. -/
def amendedFailCond (e : RefreshEnv) : Bool :=
  (trim e.refreshFileRaw == "") || !e.curlInitOk || e.parsed.isNone || claimFailCond e

/-- Schema hypothesis for the refresh response: when the body parses, it
is an object whose id_token / refresh_token / access_token members, if
present, are strings.  (Otherwise nlohmann throws out of
`refresh_tokens`; the claims do not reach that corner.) -/
def goodTokenSchema : Option Json → Bool
  | none => true
  | some (.obj m) =>
    (match Json.find? m "id_token" with
     | none => true
     | some (.str _) => true
     | some _ => false) &&
    (match Json.find? m "refresh_token" with
     | none => true
     | some (.str _) => true
     | some _ => false) &&
    (match Json.find? m "access_token" with
     | none => true
     | some (.str _) => true
     | some _ => false)
  | some _ => false

/-- Whether a `refresh_tokens` run returned failure (an uncaught
exception is not a returned failure). -/
def refreshFails (parse : String → Option Json) (old : TokenFiles)
    (e : RefreshEnv) : Bool :=
  match refresh_tokens parse old e with
  | some (.fail, _) => true
  | _ => false

/-- Success clause of claim C4, as a check on one run: when the run
returns success, the three files hold exactly the returned tokens and
the reported expiry is the one recomputed from the new identity token. -/
def successClauseOk (parse : String → Option Json) (old : TokenFiles)
    (e : RefreshEnv) : Bool :=
  match refresh_tokens parse old e with
  | some (.success i r a x, files) =>
    (files == TokenFiles.mk i r a) && (jwt_exp_unix parse i == some x)
  | _ => true

/-- Vehicle id from the topic as the amended claim C7 words it: the
second slash-delimited segment, accepted only when it has exactly 17
characters. -/
def vehicleIdFromTopicSpec (t : String) : Option String :=
  match splitOnChar '/' t with
  | _ :: v :: _ => if v.length = 17 then some v else none
  | _ => none

/-- Vehicle id selection as the amended claim C7 words it: a non-empty
payload vin is used as-is with no length check; otherwise the id comes
from the topic and is length-validated. -/
def vehicleIdSpec (t : String) (j : Json) : Option String :=
  match j with
  | .obj m =>
    (match Json.find? m "vin" with
     | some (.str s) => if s = "" then vehicleIdFromTopicSpec t else some s
     | _ => vehicleIdFromTopicSpec t)
  | _ => vehicleIdFromTopicSpec t

/-- Fan-out behavior as the amended claim C7 words it: nothing without a
parsed payload or a vehicle id; otherwise one publish per member of the
top-level data object that is an object carrying a value member,
serialized, at QoS 0, not retained. -/
def fanoutSpec (pre t : String) (parsed : Option Json) : List Pub :=
  match parsed with
  | none => []
  | some j =>
    match vehicleIdSpec t j with
    | none => []
    | some vid =>
      match j with
      | .obj m =>
        (match Json.find? m "data" with
         | some (.obj d) =>
           d.filterMap (fun e =>
             if (e.2).containsKey "value" then
               some ⟨pre ++ "vehicles/" ++ vid ++ "/" ++ e.1, (e.2).dump, 0, false⟩
             else none)
         | _ => [])
      | _ => []

/-- Whether an event list contains a token-refresh attempt. -/
def hasRefreshAttempt : List Ev → Bool
  | [] => false
  | Ev.refreshAttempt :: _ => true
  | _ :: rest => hasRefreshAttempt rest

/-! ## Shared helper lemmas -/

/-- Truncating division by 1000 of any value in [-250, 250] is zero
(C++ integer division truncates toward zero). -/
theorem tdiv1000_small (d : Int) (h1 : -250 ≤ d) (h2 : d ≤ 250) :
    Int.tdiv d 1000 = 0 := by
  cases d with
  | ofNat n =>
    rw [Int.ofNat_eq_coe] at h2
    have hn : n < 1000 := by omega
    show Int.tdiv (Int.ofNat n) 1000 = 0
    unfold Int.tdiv
    simp [Nat.div_eq_of_lt hn]
  | negSucc m =>
    rw [Int.negSucc_eq] at h1
    have hm : m + 1 < 1000 := by omega
    show Int.tdiv (Int.negSucc m) 1000 = 0
    unfold Int.tdiv
    simp [Nat.div_eq_of_lt hm]

/-- The source's sequence of overriding assignments computes the
specification's backoff table. -/
theorem backoffDelay_eq_claimDelay (rc : Int) :
    backoffDelay rc = claimDelay rc := by
  unfold backoffDelay claimDelay
  by_cases h151 : rc = 151 <;> by_cases h135 : rc = 135 <;>
    by_cases h128 : rc = 128 ∨ rc = 133 <;> simp_all

/-- The refresh gate of the source equals the amended claim condition
(strictly more than 10 s is the same as at least 11 s on an integer
clock). -/
theorem should_try_eq_refreshDueAmended (tokExp now lastSuccess lastAttempt : Int) :
    should_try tokExp now lastSuccess lastAttempt
      = refreshDueAmended tokExp now lastSuccess lastAttempt := by
  unfold should_try refreshDueAmended SOFT_MARGIN_SECS CLOCK_SKEW_SECS HARD_REFRESH_SECS
  rw [show (10 * 60 + 60 : Int) = 660 by norm_num,
      show ((45 : Int) * 60) = 2700 by norm_num,
      decide_eq_decide.mpr (show now - lastAttempt > 10 ↔ now - lastAttempt ≥ 11 by omega)]

/-! ## C10 -/

/-- C10: every parsed KEY=value line of the .env file is applied with
setenv-overwrite semantics, so the .env value replaces any identically
named variable already present in the process environment, and a
subsequent `env_str` read returns the .env value (when non-empty) in
preference to whatever the operator had exported. -/
theorem c10_env_file_overrides (env : EnvMap) (lines : List String)
    (line k v d : String) (hp : parseEnvLine line = some (k, v)) (hv : v ≠ "") :
    lookupEnv (load_env_file env (lines ++ [line])) k = some v ∧
    env_str (load_env_file env (lines ++ [line])) k d = v := by
  have h1 : load_env_file env (lines ++ [line])
      = processEnvLine (load_env_file env lines) line := by
    simp [load_env_file, List.foldl_append]
  constructor
  · rw [h1]
    simp [processEnvLine, hp, setenvOv, lookupEnv, List.find?]
  · rw [h1]
    simp [processEnvLine, hp, setenvOv, env_str, lookupEnv, List.find?, hv]

/-- C10 witness: a .env line FOO=bar replaces the pre-set value of FOO
and is returned by `env_str`. -/
theorem c10_env_file_overrides_witness :
    parseEnvLine "FOO=bar" = some ("FOO", "bar") ∧
    ("bar" : String) ≠ "" ∧
    env_str (load_env_file [("FOO", "old")] ["FOO=bar"]) "FOO" "dflt" = "bar" :=
  ⟨by decide, by decide,
   (c10_env_file_overrides [("FOO", "old")] [] "FOO=bar" "FOO" "bar" "dflt"
     (by decide) (by decide)).2⟩

/-! ## C3 -/

/-- A refresh-attempt event occurs in a concatenation exactly when it
occurs in one of the parts. -/
theorem hasRefreshAttempt_append (a b : List Ev) :
    hasRefreshAttempt (a ++ b) = (hasRefreshAttempt a || hasRefreshAttempt b) := by
  induction a with
  | nil => simp [hasRefreshAttempt]
  | cons e rest ih => cases e <;> simp [hasRefreshAttempt, ih]

/-- The watchdog phase never attempts a token refresh. -/
theorem watchdogPhase_no_refresh (st1 : SupState) (tm : TickTimes) (rb2 : Bool) :
    hasRefreshAttempt (watchdogPhase st1 tm rb2).2 = false := by
  unfold watchdogPhase
  split
  · split
    · rfl
    · split
      · rfl
      · split <;> rfl
  · rfl

/-- The refresh phase attempts a refresh exactly when the gate holds. -/
theorem refreshPhase_refresh (st : SupState) (tm : TickTimes)
    (refreshOk : Bool) (newExp : Int) (rb1 : Bool) :
    hasRefreshAttempt (refreshPhase st tm refreshOk newExp rb1).2
      = should_try st.id_token_exp tm.now st.last_successful_refresh
          st.last_refresh_attempt := by
  unfold refreshPhase
  split
  · next htry =>
    split
    · split <;> simp [hasRefreshAttempt, htry]
    · simp [hasRefreshAttempt, htry]
  · next htry => simp [hasRefreshAttempt, Bool.not_eq_true] at htry ⊢; simp [htry]


/-- C3 counterexample: with the backoff fence open, the soft condition
holding, and exactly 10 seconds elapsed since the previous refresh
attempt, the claim's gate (at least 10 s) says a refresh is attempted,
but the supervisor does not attempt one (the source requires strictly
more than 10 s). -/
theorem c3_boundary_ten_seconds_cex :
    hasRefreshAttempt
        (supervisorTick ⟨false, 0, 0, 1000, 990, 0⟩ ⟨1000, 0, 0, 0⟩ true 0 true true).2
      = false ∧
    refreshDueClaim 1000 1000 0 990 = true ∧
    decide ((1000 : Int) < 0) = false := by
  refine ⟨?_, by decide, by decide⟩
  decide

/-- C3 (amended): on a supervisor tick, a token refresh is attempted if
and only if the backoff fence is open and either the soft condition
(id_token_exp − now ≤ 660 s) or the hard condition
(now − last_successful_refresh ≥ 2700 s) holds, and strictly more than
10 seconds (at least 11 s) have elapsed since the previous attempt. -/
theorem c3_refresh_gating (st : SupState) (tm : TickTimes)
    (refreshOk : Bool) (newExp : Int) (rb1 rb2 : Bool) :
    hasRefreshAttempt (supervisorTick st tm refreshOk newExp rb1 rb2).2
      = (!(decide (tm.now < st.next_connect_after)) &&
         refreshDueAmended st.id_token_exp tm.now
           st.last_successful_refresh st.last_refresh_attempt) := by
  unfold supervisorTick
  split
  · next h => simp [hasRefreshAttempt, h]
  · next h =>
    rw [hasRefreshAttempt_append, watchdogPhase_no_refresh,
      refreshPhase_refresh, ← should_try_eq_refreshDueAmended]
    simp [h]

/-! ## C5 -/

/-- C5: for every nonzero connect reason code, the v5 connect callback
clears `connected` and sets the backoff fence to now plus the table
delay (60 for 151, 30 for 135, 20 for 128/133, 5 otherwise) plus the
jitter draw quantised to whole seconds — a quantisation that maps every
value of the [-250, 250] ms draw to 0. -/
theorem c5_connect_backoff_table (st : CbState) (rc now draw : Int)
    (hrc : rc ≠ 0) (h1 : -250 ≤ draw) (h2 : draw ≤ 250) :
    (on_bmw_connect_v5 st rc now draw).connected = false ∧
    (on_bmw_connect_v5 st rc now draw).next_connect_after
      = now + claimDelay rc + Int.tdiv (jitter_ms 0 draw) 1000 ∧
    Int.tdiv (jitter_ms 0 draw) 1000 = 0 ∧
    (on_bmw_connect_v5 st rc now draw).next_connect_after = now + claimDelay rc := by
  have hj : jitter_ms 0 draw = draw := by simp [jitter_ms]
  have hdiv : Int.tdiv (jitter_ms 0 draw) 1000 = 0 := by
    rw [hj]; exact tdiv1000_small draw h1 h2
  have hbd := backoffDelay_eq_claimDelay rc
  unfold on_bmw_connect_v5
  simp [hrc, hdiv, hbd]

/-- C5 witness: reason code 135 with a draw of -100 ms yields a 30 s
fence. -/
theorem c5_connect_backoff_table_witness :
    ((135 : Int) ≠ 0) ∧ ((-250 : Int) ≤ -100) ∧ ((-100 : Int) ≤ 250) ∧
    (on_bmw_connect_v5 ⟨true, 5, 0⟩ 135 1000 (-100)).next_connect_after
      = 1000 + claimDelay 135 :=
  ⟨by decide, by decide, by decide,
   (c5_connect_backoff_table ⟨true, 5, 0⟩ 135 1000 (-100)
     (by decide) (by decide) (by decide)).2.2.2⟩

/-! ## C9 -/

/-- C9 counterexample: with LOCAL_PREFIX configured as x/, the claim
requires status publishes and the last will on topic x/status, but both
use the fixed literal topic bmw/status. -/
theorem c9_status_topic_cex :
    (publishStatusPub true 5).topic = "bmw/status" ∧
    localWillPub.topic = "bmw/status" ∧
    (publishStatusPub true 5).topic ≠ "x/" ++ "status" ∧
    localWillPub.topic ≠ "x/" ++ "status" := by
  refine ⟨rfl, rfl, by decide, by decide⟩

/-- C9 (amended): every status publish is a retained message on the fixed
topic bmw/status carrying the serialized object with the connected flag
and the timestamp, and the local client's last will is a retained
connected-false payload on the same fixed topic; that topic coincides
with LOCAL_PREFIX followed by the word status only for the default
prefix value bmw/. -/
theorem c9_status_and_will (c : Bool) (ts : Int) :
    publishStatusPub c ts = ⟨"bmw/status", statusPayload c ts, 0, true⟩ ∧
    statusPayload c ts
      = "\x7b\"connected\":" ++ (if c then "true" else "false") ++ ",\"timestamp\":"
          ++ toString ts ++ "\x7d" ∧
    localWillPub = ⟨"bmw/status", "\x7b\"connected\":false\x7d", 0, true⟩ ∧
    ("bmw/status" : String) = "bmw/" ++ "status" := by
  refine ⟨rfl, ?_, rfl, by decide⟩
  cases c <;>
    · simp only [statusPayload, Json.dump, Json.dumpObjList, if_true, if_false]
      simp only [← String.append_assoc]
      congr 2

/-! ## C2 -/

/-- A `write_file_atomic` call succeeds exactly when its failure oracle
is the no-failure value. -/
theorem write_file_atomic_ok_iff (d : String) (f : WFail) :
    (write_file_atomic d f).1 = (f == WFail.ok) := by
  cases f <;> rfl

/-- The persistence phase succeeds exactly when all three writes do. -/
theorem persistTokens_ok_eq (old new : TokenFiles) (f1 f2 f3 : WFail) :
    (persistTokens old new f1 f2 f3).1
      = ((f1 == WFail.ok) && (f2 == WFail.ok) && (f3 == WFail.ok)) := by
  cases f1 <;> cases f2 <;> cases f3 <;> rfl

/-- When the persistence phase succeeds, the final file contents are the
new token set. -/
theorem persistTokens_final_of_ok (old new : TokenFiles) (f1 f2 f3 : WFail)
    (h : (persistTokens old new f1 f2 f3).1 = true) :
    (persistTokens old new f1 f2 f3).2.1 = new := by
  cases f1 <;> cases f2 <;> cases f3 <;> simp_all [persistTokens, write_file_atomic]

/-- C2 counterexample: with all three writes succeeding, a concurrent
reader can observe the state after the first rename — new id token with
old refresh and access tokens — which is neither the complete
pre-refresh set nor the complete post-refresh set; and when the first
rename fails while the other two succeed, the refresh attempt reports
failure yet leaves a persistent mixed state on disk. -/
theorem c2_cross_file_mixed_state_cex :
    (persistTokens ⟨"ID0", "RT0", "AT0"⟩ ⟨"ID1", "RT1", "AT1"⟩
        WFail.ok WFail.ok WFail.ok).2.2.contains ⟨"ID1", "RT0", "AT0"⟩ = true ∧
    (⟨"ID1", "RT0", "AT0"⟩ : TokenFiles) ≠ ⟨"ID0", "RT0", "AT0"⟩ ∧
    (⟨"ID1", "RT0", "AT0"⟩ : TokenFiles) ≠ ⟨"ID1", "RT1", "AT1"⟩ ∧
    (persistTokens ⟨"ID0", "RT0", "AT0"⟩ ⟨"ID1", "RT1", "AT1"⟩
        WFail.atRename WFail.ok WFail.ok).1 = false ∧
    (persistTokens ⟨"ID0", "RT0", "AT0"⟩ ⟨"ID1", "RT1", "AT1"⟩
        WFail.atRename WFail.ok WFail.ok).2.1 = ⟨"ID0", "RT1", "AT1"⟩ := by
  refine ⟨by decide, by decide, by decide, by decide, by decide⟩

/-- C2 (amended): each credential file is written through a temporary
file created in the target directory with mode 0644, fully written,
flushed, renamed over the target, with a directory flush after the
rename; each individual file is therefore always observed either with
its complete pre-refresh or its complete post-refresh content; a write
error makes the persistence phase (and hence the refresh attempt) report
failure, although the remaining files are still attempted, so mixed
old/new combinations across the three files are observable. -/
theorem c2_per_file_atomic_persistence (old new : TokenFiles)
    (f1 f2 f3 : WFail) (d : String) :
    write_file_atomic d WFail.ok
      = (true, [FsOp.createTemp, FsOp.chmodTemp 0o644, FsOp.writeTemp d,
                FsOp.fsyncTemp, FsOp.renameTemp, FsOp.fsyncDir]) ∧
    (write_file_atomic d f1).1 = (f1 == WFail.ok) ∧
    (persistTokens old new f1 f2 f3).1
      = ((f1 == WFail.ok) && (f2 == WFail.ok) && (f3 == WFail.ok)) ∧
    fileAtomicObs old new (persistTokens old new f1 f2 f3).2.2 = true ∧
    ((persistTokens old new f1 f2 f3).1 = true →
      (persistTokens old new f1 f2 f3).2.1 = new) := by
  refine ⟨rfl, write_file_atomic_ok_iff d f1, persistTokens_ok_eq old new f1 f2 f3,
    ?_, persistTokens_final_of_ok old new f1 f2 f3⟩
  cases f1 <;> cases f2 <;> cases f3 <;>
    simp [persistTokens, write_file_atomic, fileAtomicObs]

/-- C2 witness: a fully successful persistence keeps every observable
state per-file consistent and ends with the new token set. -/
theorem c2_per_file_atomic_persistence_witness :
    fileAtomicObs ⟨"a", "b", "c"⟩ ⟨"d", "e", "f"⟩
        (persistTokens ⟨"a", "b", "c"⟩ ⟨"d", "e", "f"⟩
          WFail.ok WFail.ok WFail.ok).2.2 = true ∧
    (persistTokens ⟨"a", "b", "c"⟩ ⟨"d", "e", "f"⟩
        WFail.ok WFail.ok WFail.ok).2.1 = ⟨"d", "e", "f"⟩ :=
  ⟨(c2_per_file_atomic_persistence ⟨"a", "b", "c"⟩ ⟨"d", "e", "f"⟩
      WFail.ok WFail.ok WFail.ok "x").2.2.2.1,
   (c2_per_file_atomic_persistence ⟨"a", "b", "c"⟩ ⟨"d", "e", "f"⟩
      WFail.ok WFail.ok WFail.ok "x").2.2.2.2 (by decide)⟩

/-! ## C6 -/

/-- Every publish produced by the data fan-out targets a vehicles topic
at QoS 0, not retained. -/
theorem dataPubs_shape (pre vid : String) (j : Json) (p : Pub)
    (hp : p ∈ dataPubs pre vid j) :
    ∃ nm pl, p = ⟨pre ++ "vehicles/" ++ vid ++ "/" ++ nm, pl, 0, false⟩ := by
  unfold dataPubs at hp
  split at hp
  · next m =>
    split at hp
    · next d _ =>
      rw [List.mem_filterMap] at hp
      obtain ⟨e, _, he⟩ := hp
      split at he
      · exact ⟨e.1, (e.2).dump, by injection he with h; exact h.symm⟩
      · cases he
    · cases hp
  · cases hp

/-- Every publish of the fan-out phase targets a vehicles topic. -/
theorem fanoutPubs_shape (pre t : String) (parsed : Option Json) (p : Pub)
    (hp : p ∈ fanoutPubs pre t parsed) :
    ∃ vid nm pl, p = ⟨pre ++ "vehicles/" ++ vid ++ "/" ++ nm, pl, 0, false⟩ := by
  unfold fanoutPubs at hp
  simp only [] at hp
  repeat' split at hp
  all_goals
    first
      | cases hp
      | (obtain ⟨nm, pl, h⟩ := dataPubs_shape _ _ _ _ hp; exact ⟨_, nm, pl, h⟩)

/-- C6: for every delivery on a topic with at least one slash, exactly
one raw republish occurs — it is the head of the publish sequence, on
the prefix-raw topic with the account segment elided, carrying the
byte-identical payload at QoS 0 not retained; every later publish of the
same invocation is a per-property vehicles publish; and when the payload
does not parse, the raw republish still occurs and is the only one. -/
theorem c6_raw_republish_first (pre t payload : String) (parsed : Option Json)
    (g v : String) (rest : List String) (hsplit : splitOnChar '/' t = g :: v :: rest) :
    on_bmw_message pre t payload parsed
      = ⟨pre ++ "raw/" ++ joinWith "/" (v :: rest), payload, 0, false⟩
          :: fanoutPubs pre t parsed ∧
    (∀ p ∈ fanoutPubs pre t parsed,
      ∃ vid nm pl, p = ⟨pre ++ "vehicles/" ++ vid ++ "/" ++ nm, pl, 0, false⟩) ∧
    (parsed = none →
      on_bmw_message pre t payload parsed
        = [⟨pre ++ "raw/" ++ joinWith "/" (v :: rest), payload, 0, false⟩]) := by
  have hraw : rawTopic pre t = pre ++ "raw/" ++ joinWith "/" (v :: rest) := by
    unfold rawTopic
    rw [hsplit]
  refine ⟨?_, ?_, ?_⟩
  · unfold on_bmw_message
    rw [hraw]
  · intro p hp
    exact fanoutPubs_shape pre t parsed p hp
  · intro hnone
    subst hnone
    unfold on_bmw_message fanoutPubs
    rw [hraw]

/-! ## C6 witness -/

/-- C6 witness: a topic with three slashes and an unparseable payload
yields exactly the raw republish. -/
theorem c6_raw_republish_first_witness :
    splitOnChar '/' "G/V/a/b" = ["G", "V", "a", "b"] ∧
    on_bmw_message "bmw/" "G/V/a/b" "PAY" none
      = [⟨"bmw/" ++ "raw/" ++ joinWith "/" ["V", "a", "b"], "PAY", 0, false⟩] :=
  ⟨by decide,
   (c6_raw_republish_first "bmw/" "G/V/a/b" "PAY" none "G" "V" ["a", "b"]
     (by decide)).2.2 rfl⟩

/-! ## C7 -/

/-- C7 counterexample: a payload-supplied vin of 5 characters is not
dropped — the fan-out publish happens with the short id, because the
source's 17-character check only runs on the topic-extracted id. -/
theorem c7_payload_vin_unchecked_cex :
    fanoutPubs "bmw/" "acct/ABCDEFGHIJKLMNOPQ/tel"
        (some (Json.obj [("vin", Json.str "SHORT"),
                         ("data", Json.obj [("p", Json.obj [("value", Json.num 1)])])]))
      = [⟨"bmw/vehicles/SHORT/p", "\x7b\"value\":1\x7d", 0, false⟩] ∧
    "SHORT".length ≠ 17 := by
  refine ⟨rfl, by decide⟩

/-- The claim-side fan-out in terms of the id selector and the shared
per-property publish list. -/
theorem fanoutSpec_eval (pre t : String) (j : Json) :
    fanoutSpec pre t (some j)
      = (match vehicleIdSpec t j with
         | none => []
         | some vid => dataPubs pre vid j) := by
  unfold fanoutSpec
  cases h : vehicleIdSpec t j <;> cases j <;> simp [h, dataPubs]

/-- When the payload supplies no usable vin, the fan-out follows the
topic-extracted id with its 17-character validation. -/
theorem fanout_topic_path (pre t : String) (j : Json)
    (hv : vinFromPayload j = "") :
    fanoutPubs pre t (some j)
      = (match vehicleIdFromTopicSpec t with
         | none => []
         | some vid => dataPubs pre vid j) := by
  unfold fanoutPubs vehicleIdFromTopicSpec
  simp only [hv, ne_eq, not_true_eq_false, if_false]
  rcases hsplit : splitOnChar '/' t with _ | ⟨g, rest2⟩
  · simp
  · rcases rest2 with _ | ⟨v, rest⟩
    · simp
    · by_cases hl : v.length = 17 <;> simp [hl]

/-- C7 (amended): for a parsed payload the vehicle id is the non-empty
top-level vin string when present (used as-is, with no length check),
otherwise the second slash-delimited segment of the topic, which is
dropped unless it has exactly 17 characters; with no id the message is
dropped; otherwise exactly the members of the top-level data object that
are objects carrying a value member are published, serialized, to the
prefix-vehicles topic at QoS 0 not retained; the fan-out function is
total, so no processing failure escapes the callback. -/
theorem c7_fanout_semantics (pre t : String) (parsed : Option Json) :
    fanoutPubs pre t parsed = fanoutSpec pre t parsed := by
  cases parsed with
  | none => rfl
  | some j =>
    rw [fanoutSpec_eval]
    cases j with
    | obj m =>
      cases hvin : Json.find? m "vin" with
      | none =>
        rw [fanout_topic_path pre t _ (by simp [vinFromPayload, hvin])]
        simp [vehicleIdSpec, hvin]
      | some jv =>
        cases jv with
        | str s =>
          by_cases hs : s = ""
          · subst hs
            rw [fanout_topic_path pre t _ (by simp [vinFromPayload, hvin])]
            simp [vehicleIdSpec, hvin]
          · have h1 : vinFromPayload (Json.obj m) = s := by simp [vinFromPayload, hvin]
            unfold fanoutPubs
            simp [h1, hs, vehicleIdSpec, hvin]
        | null =>
          rw [fanout_topic_path pre t _ (by simp [vinFromPayload, hvin])]
          simp [vehicleIdSpec, hvin]
        | bool b =>
          rw [fanout_topic_path pre t _ (by simp [vinFromPayload, hvin])]
          simp [vehicleIdSpec, hvin]
        | num n =>
          rw [fanout_topic_path pre t _ (by simp [vinFromPayload, hvin])]
          simp [vehicleIdSpec, hvin]
        | arr xs =>
          rw [fanout_topic_path pre t _ (by simp [vinFromPayload, hvin])]
          simp [vehicleIdSpec, hvin]
        | obj m2 =>
          rw [fanout_topic_path pre t _ (by simp [vinFromPayload, hvin])]
          simp [vehicleIdSpec, hvin]
    | null =>
      rw [fanout_topic_path pre t Json.null rfl]
      simp [vehicleIdSpec]
    | bool b =>
      rw [fanout_topic_path pre t (Json.bool b) rfl]
      simp [vehicleIdSpec]
    | num n =>
      rw [fanout_topic_path pre t (Json.num n) rfl]
      simp [vehicleIdSpec]
    | str s =>
      rw [fanout_topic_path pre t (Json.str s) rfl]
      simp [vehicleIdSpec]
    | arr xs =>
      rw [fanout_topic_path pre t (Json.arr xs) rfl]
      simp [vehicleIdSpec]

/-! ## C8 -/

/-- C8: `jwt_exp_unix` follows the claimed procedure — with fewer than
two dots the result is 0; otherwise the segment between the first and
second dot is base64url-decoded (dash and underscore mapped back,
padding appended to a multiple of 4) and parsed as JSON; a failed parse
yields 0, an absent exp member yields 0, and a numeric exp member is
returned. -/
theorem c8_jwt_exp_extraction (parse : String → Option Json) (jwt s0 s1 : String)
    (rest : List String) :
    ((splitOnChar '.' jwt).length ≤ 2 → jwt_exp_unix parse jwt = some 0) ∧
    (splitOnChar '.' jwt = s0 :: s1 :: rest → rest ≠ [] →
      ((parse (base64url_decode s1) = none → jwt_exp_unix parse jwt = some 0) ∧
       (∀ m : List (String × Json), parse (base64url_decode s1) = some (Json.obj m) →
          ((Json.find? m "exp" = none → jwt_exp_unix parse jwt = some 0) ∧
           (∀ n : Int, Json.find? m "exp" = some (Json.num n) →
              jwt_exp_unix parse jwt = some n))))) := by
  constructor
  · intro hlen
    unfold jwt_exp_unix
    rcases hs : splitOnChar '.' jwt with _ | ⟨a, _ | ⟨b, _ | ⟨c, r⟩⟩⟩ <;>
      simp_all
  · intro hsplit hne
    rcases rest with _ | ⟨r0, rs⟩
    · exact absurd rfl hne
    · have hred : jwt_exp_unix parse jwt
          = (match parse (base64url_decode s1) with
             | none => some 0
             | some j => Json.valueInt j "exp") := by
        unfold jwt_exp_unix
        rw [hsplit]
      refine ⟨?_, ?_⟩
      · intro hp
        rw [hred, hp]
      · intro m hp
        refine ⟨?_, ?_⟩
        · intro hexp
          rw [hred, hp]
          simp [Json.valueInt, hexp]
        · intro n hexp
          rw [hred, hp]
          simp [Json.valueInt, hexp]

/-- C8 witness: a token whose middle segment is the base64url encoding
of an object with exp 5 yields expiry 5 under a parser recognizing that
decoded text. -/
theorem c8_jwt_exp_extraction_witness :
    splitOnChar '.' "h.eyJleHAiOjV9.s" = ["h", "eyJleHAiOjV9", "s"] ∧
    base64url_decode "eyJleHAiOjV9" = "\x7b\"exp\":5\x7d" ∧
    jwt_exp_unix
        (fun s => if s = "\x7b\"exp\":5\x7d"
          then some (Json.obj [("exp", Json.num 5)]) else none)
        "h.eyJleHAiOjV9.s" = some 5 :=
  ⟨by decide, by decide,
   (((c8_jwt_exp_extraction
        (fun s => if s = "\x7b\"exp\":5\x7d"
          then some (Json.obj [("exp", Json.num 5)]) else none)
        "h.eyJleHAiOjV9.s" "h" "eyJleHAiOjV9" ["s"]).2
      (by decide) (by decide)).2 [("exp", Json.num 5)] (by rfl)).2 5 (by rfl)⟩

/-! ## C1 -/

/-- Fence respect distributes over concatenation. -/
theorem allFenceOk_append (a b : List Ev) :
    allFenceOk (a ++ b) = (allFenceOk a && allFenceOk b) := by
  simp [allFenceOk, List.all_append]

/-- The refresh phase only connects after the post-refresh fence: the
fence is written as `t1 + 1` before the mandatory sleep, and the connect
inside `bmw_full_reconnect` happens at `t2` with `t1 + 1 ≤ t2`. -/
theorem refreshPhase_fence (st : SupState) (tm : TickTimes)
    (refreshOk : Bool) (newExp : Int) (rb1 : Bool) (h : tm.t1 + 1 ≤ tm.t2) :
    allFenceOk (refreshPhase st tm refreshOk newExp rb1).2 = true := by
  unfold refreshPhase
  split
  · split
    · split
      · simp [allFenceOk, fenceOk, h]
      · rfl
    · rfl
  · rfl

/-- The watchdog phase only connects after its fresh fence check. -/
theorem watchdogPhase_fence (st1 : SupState) (tm : TickTimes) (rb2 : Bool) :
    allFenceOk (watchdogPhase st1 tm rb2).2 = true := by
  unfold watchdogPhase
  split
  · split
    · rfl
    · split
      · rfl
      · split
        · next hge => simp [allFenceOk, fenceOk, hge]
        · rfl
  · rfl

/-- C1: on every supervisor tick — under the timing fact that the
post-refresh sleep of at least 1.5 s advances the integer clock past the
fence written as `t1 + 1` — every CONNECT issued (the reconnect after a
successful refresh and the watchdog-rebuild connect) observes a time not
earlier than the backoff fence, and the guarded initial connect at boot
does as well; the supervisor never initiates a connect while now is
before the fence. -/
theorem c1_connects_respect_backoff_fence (st : SupState) (tm : TickTimes)
    (refreshOk : Bool) (newExp : Int) (rb1 rb2 : Bool) (t fence : Int)
    (h : tm.t1 + 1 ≤ tm.t2) :
    allFenceOk (supervisorTick st tm refreshOk newExp rb1 rb2).2 = true ∧
    allFenceOk (initialConnect t fence) = true := by
  constructor
  · unfold supervisorTick
    split
    · rfl
    · show allFenceOk ((refreshPhase st tm refreshOk newExp rb1).2
          ++ (watchdogPhase (refreshPhase st tm refreshOk newExp rb1).1 tm rb2).2) = true
      rw [allFenceOk_append, refreshPhase_fence st tm refreshOk newExp rb1 h,
        watchdogPhase_fence]
      rfl
  · unfold initialConnect
    split
    · next hge => simp [allFenceOk, fenceOk, hge]
    · rfl

/-- C1 witness: a tick whose refresh succeeds issues its reconnect at
time 6 against a fence of 6, and a boot connect at time 7 respects a
fence of 3. -/
theorem c1_connects_respect_backoff_fence_witness :
    ((5 : Int) + 1 ≤ 6) ∧
    allFenceOk (supervisorTick ⟨false, 0, 0, 0, -100, 0⟩ ⟨0, 5, 6, 0⟩
        true 0 true true).2 = true ∧
    allFenceOk (initialConnect 7 3) = true :=
  ⟨by decide,
   (c1_connects_respect_backoff_fence ⟨false, 0, 0, 0, -100, 0⟩ ⟨0, 5, 6, 0⟩
      true 0 true true 7 3 (by decide)).1,
   (c1_connects_respect_backoff_fence ⟨false, 0, 0, 0, -100, 0⟩ ⟨0, 5, 6, 0⟩
      true 0 true true 7 3 (by decide)).2⟩

/-! ## C4 -/

/-- Under the response schema, reading a token member with string
default never throws, and the claim's missing-or-empty reading of that
member coincides with emptiness of the trimmed value read. -/
theorem valueStr_schema (m : List (String × Json)) (k : String)
    (h : (match Json.find? m k with
          | none => true
          | some (Json.str _) => true
          | some _ => false) = true) :
    ∃ s, Json.valueStr (Json.obj m) k = some s ∧
      tokenMissingOrEmpty (Json.obj m) k = (trim s == "") := by
  cases hf : Json.find? m k with
  | none =>
    refine ⟨"", by simp [Json.valueStr, hf], ?_⟩
    simp [tokenMissingOrEmpty, hf, trim, trimChars]
  | some jv =>
    cases jv with
    | str s => exact ⟨s, by simp [Json.valueStr, hf], by simp [tokenMissingOrEmpty, hf]⟩
    | null => rw [hf] at h; simp at h
    | bool b => rw [hf] at h; simp at h
    | num n => rw [hf] at h; simp at h
    | arr xs => rw [hf] at h; simp at h
    | obj m2 => rw [hf] at h; simp at h

/-- C4 counterexample: an empty stored refresh-token file makes
`refresh_tokens` return failure before any HTTP activity, although none
of the claim's five failure conditions holds (the transport and response
oracles describe a fully successful exchange). -/
theorem c4_failure_conditions_cex :
    refreshFails (fun _ => none) ⟨"I", "R", "A"⟩
        ⟨"", true, some (200, "body"),
         some (Json.obj [("id_token", Json.str "x"), ("refresh_token", Json.str "r"),
                         ("access_token", Json.str "a")]),
         WFail.ok, WFail.ok, WFail.ok⟩ = true ∧
    claimFailCond
        ⟨"", true, some (200, "body"),
         some (Json.obj [("id_token", Json.str "x"), ("refresh_token", Json.str "r"),
                         ("access_token", Json.str "a")]),
         WFail.ok, WFail.ok, WFail.ok⟩ = false := by
  refine ⟨rfl, by decide⟩

/-- C4 (amended): under the response schema, `refresh_tokens` returns
failure exactly when the stored refresh token is missing or empty, the
HTTP client cannot be created, the transport fails, the status is not
200, the 200 body is not valid JSON, the response carries a non-null
error member, any of the three tokens is absent or empty after trimming,
or persisting a token file fails; and whenever it returns success, all
three trimmed tokens have been persisted and the reported expiry is the
one recomputed from the new identity token. -/
theorem c4_refresh_outcomes (parse : String → Option Json) (old : TokenFiles)
    (e : RefreshEnv) (hschema : goodTokenSchema e.parsed = true) :
    refreshFails parse old e = amendedFailCond e ∧
    successClauseOk parse old e = true := by
  obtain ⟨raw, init, tr, pj, f1, f2, f3⟩ := e
  by_cases hraw : trim raw = ""
  · constructor <;>
      simp [refreshFails, refresh_tokens, successClauseOk, amendedFailCond, hraw]
  · have hraw' : (trim raw == "") = false := by
      simp [hraw]
    cases init with
    | false =>
      constructor <;>
        simp [refreshFails, refresh_tokens, successClauseOk, amendedFailCond, hraw]
    | true =>
      cases tr with
      | none =>
        constructor <;>
          simp [refreshFails, refresh_tokens, successClauseOk, amendedFailCond,
            claimFailCond, hraw]
      | some cb =>
        obtain ⟨code, body⟩ := cb
        by_cases hcode : code = 200
        · subst hcode
          cases pj with
          | none =>
            constructor <;>
              simp [refreshFails, refresh_tokens, successClauseOk, amendedFailCond,
                claimFailCond, hraw]
          | some j =>
            cases j with
            | null => simp [goodTokenSchema] at hschema
            | bool b => simp [goodTokenSchema] at hschema
            | num n => simp [goodTokenSchema] at hschema
            | str s => simp [goodTokenSchema] at hschema
            | arr xs => simp [goodTokenSchema] at hschema
            | obj m =>
              simp only [goodTokenSchema, Bool.and_eq_true] at hschema
              obtain ⟨⟨h1, h2⟩, h3⟩ := hschema
              obtain ⟨sid, hsid, hmid⟩ := valueStr_schema m "id_token" h1
              obtain ⟨srt, hsrt, hmrt⟩ := valueStr_schema m "refresh_token" h2
              obtain ⟨sac, hsac, hmac⟩ := valueStr_schema m "access_token" h3
              by_cases herr : (Json.obj m).hasNonNullError = true
              · constructor <;>
                  simp [refreshFails, refresh_tokens, successClauseOk,
                    amendedFailCond, claimFailCond, hraw, herr]
              · rw [Bool.not_eq_true] at herr
                by_cases hempty : trim sid = "" ∨ trim srt = "" ∨ trim sac = ""
                · constructor
                  · rcases hempty with h | h | h <;>
                      simp [refreshFails, refresh_tokens, amendedFailCond,
                        claimFailCond, tokensMissing, hraw, herr, hsid, hsrt, hsac,
                        hmid, hmrt, hmac, h]
                  · rcases hempty with h | h | h <;>
                      simp [successClauseOk, refresh_tokens, hraw, herr,
                        hsid, hsrt, hsac, h]
                · push_neg at hempty
                  obtain ⟨he1, he2, he3⟩ := hempty
                  have hm1 : (trim sid == "") = false := by simp [he1]
                  have hm2 : (trim srt == "") = false := by simp [he2]
                  have hm3 : (trim sac == "") = false := by simp [he3]
                  by_cases hper : ((f1 == WFail.ok) && (f2 == WFail.ok) &&
                      (f3 == WFail.ok)) = true
                  · have hpok : (persistTokens old ⟨trim sid, trim srt, trim sac⟩
                        f1 f2 f3).1 = true := by
                      rw [persistTokens_ok_eq]; exact hper
                    have hfin := persistTokens_final_of_ok old
                      ⟨trim sid, trim srt, trim sac⟩ f1 f2 f3 hpok
                    cases hjwt : jwt_exp_unix parse (trim sid) with
                    | none =>
                      constructor
                      · simp [refreshFails, refresh_tokens, amendedFailCond,
                          claimFailCond, tokensMissing, hraw, hraw', herr, hsid, hsrt, hsac,
                          hmid, hmrt, hmac, hm1, hm2, hm3, he1, he2, he3, hpok, hjwt,
                          hper]
                      · simp [successClauseOk, refresh_tokens, hraw, herr,
                          hsid, hsrt, hsac, he1, he2, he3, hpok, hjwt]
                    | some ex =>
                      constructor
                      · simp [refreshFails, refresh_tokens, amendedFailCond,
                          claimFailCond, tokensMissing, hraw, hraw', herr, hsid, hsrt, hsac,
                          hmid, hmrt, hmac, hm1, hm2, hm3, he1, he2, he3, hpok, hjwt,
                          hper]
                      · simp [successClauseOk, refresh_tokens, hraw, herr,
                          hsid, hsrt, hsac, he1, he2, he3, hpok, hjwt, hfin]
                  · have hpno : (persistTokens old ⟨trim sid, trim srt, trim sac⟩
                        f1 f2 f3).1 = false := by
                      rw [persistTokens_ok_eq, ← Bool.not_eq_true]; exact hper
                    constructor
                    · simp [refreshFails, refresh_tokens, amendedFailCond,
                        claimFailCond, tokensMissing, hraw, hraw', herr, hsid, hsrt, hsac,
                        hmid, hmrt, hmac, hm1, hm2, hm3, he1, he2, he3, hpno, hper]
                    · simp [successClauseOk, refresh_tokens, hraw, herr,
                        hsid, hsrt, hsac, he1, he2, he3, hpno]
        · constructor <;>
            simp [refreshFails, refresh_tokens, successClauseOk, amendedFailCond,
              claimFailCond, hraw, hcode]

/-- C4 witness: a fully successful exchange — 200 status, parseable
body, three non-empty string tokens, all writes succeeding — satisfies
the amended equivalence and the success clause. -/
theorem c4_refresh_outcomes_witness :
    goodTokenSchema
        (some (Json.obj [("id_token", Json.str "h.e30.s"),
                         ("refresh_token", Json.str "r1"),
                         ("access_token", Json.str "a1")])) = true ∧
    refreshFails
        (fun s => if s = "\x7b\x7d" then some (Json.obj []) else none)
        ⟨"oi", "or", "oa"⟩
        ⟨" R0 ", true, some (200, "BODY"),
         some (Json.obj [("id_token", Json.str "h.e30.s"),
                         ("refresh_token", Json.str "r1"),
                         ("access_token", Json.str "a1")]),
         WFail.ok, WFail.ok, WFail.ok⟩
      = amendedFailCond
        ⟨" R0 ", true, some (200, "BODY"),
         some (Json.obj [("id_token", Json.str "h.e30.s"),
                         ("refresh_token", Json.str "r1"),
                         ("access_token", Json.str "a1")]),
         WFail.ok, WFail.ok, WFail.ok⟩ ∧
    successClauseOk
        (fun s => if s = "\x7b\x7d" then some (Json.obj []) else none)
        ⟨"oi", "or", "oa"⟩
        ⟨" R0 ", true, some (200, "BODY"),
         some (Json.obj [("id_token", Json.str "h.e30.s"),
                         ("refresh_token", Json.str "r1"),
                         ("access_token", Json.str "a1")]),
         WFail.ok, WFail.ok, WFail.ok⟩ = true :=
  ⟨by decide,
   (c4_refresh_outcomes
      (fun s => if s = "\x7b\x7d" then some (Json.obj []) else none)
      ⟨"oi", "or", "oa"⟩
      ⟨" R0 ", true, some (200, "BODY"),
       some (Json.obj [("id_token", Json.str "h.e30.s"),
                       ("refresh_token", Json.str "r1"),
                       ("access_token", Json.str "a1")]),
       WFail.ok, WFail.ok, WFail.ok⟩ (by decide)).1,
   (c4_refresh_outcomes
      (fun s => if s = "\x7b\x7d" then some (Json.obj []) else none)
      ⟨"oi", "or", "oa"⟩
      ⟨" R0 ", true, some (200, "BODY"),
       some (Json.obj [("id_token", Json.str "h.e30.s"),
                       ("refresh_token", Json.str "r1"),
                       ("access_token", Json.str "a1")]),
       WFail.ok, WFail.ok, WFail.ok⟩ (by decide)).2⟩
